import Mathlib

/-!
Verification of the 0g-gateway completion-orchestration core.

The repository contains two variants of `ZeroGOpenAIGateway` in
`src/gateway.ts`:

* the pinned-provider variant (first half of the file): the gateway is
  configured with one provider; `createChatCompletion(_model, messages)`
  ignores its `_model` argument and runs a bounded retry loop
  (`while (retryCount < this.maxRetries)`) that re-fetches request
  headers on every attempt, detects a `settleFee ... expected <n> A0GI`
  error text, settles the extracted fee, and retries; all per-attempt
  exceptions are swallowed by the attempt's `catch`;

* the cache-resolver variant (second half of the file): the gateway
  keeps a `Map`-backed service cache, resolves the requested model by
  exact string match over the cache (refreshing it at most once via
  `getModels`), fetches headers once, issues a completion call, and on
  a fee-shortfall error settles once and retries once, reusing the same
  headers; a settlement failure is rethrown.

Both variants are embedded below as pure functions over an explicit
environment (`AttemptEnv` / `EnvV2`) that supplies the outcome of every
external broker / network interaction; the functions additionally return
an execution trace (counts of signing, inference, settlement and refresh
calls, and the header value used by each inference call) so that the
claims about call counts can be stated and proved.

Numbers extracted from fee-shortfall error text are parsed by the code
with JavaScript's `Number(...)`; here they are represented exactly as a
decimal `(numerator : Int, decimalPlaces : Nat)` pair, with
`jsDecimalVal` giving the rational value (exact for the decimals that
occur in the claims).
-/

/-! ## String helpers (substring test and the two fee regexes) -/

/-- `needle` is a prefix of `hay` (character lists). -/
def startsWithCl : List Char → List Char → Bool
  | [], _ => true
  | _ :: _, [] => false
  | a :: as, b :: bs => a = b && startsWithCl as bs

/-- JavaScript `hay.includes(needle)`: `needle` occurs somewhere in `hay`. -/
def containsSub (hay needle : List Char) : Bool :=
  match hay with
  | [] => startsWithCl needle []
  | _ :: rest => startsWithCl needle hay || containsSub rest needle

/-- Character class `[\d.]` of the fee regexes. -/
def isDigitOrDot (c : Char) : Bool := c.isDigit || c = '.'

/-- Maximal leading run of `[\d.]` characters (greedy `[\d.]+` step). -/
def takeRun : List Char → List Char × List Char
  | [] => ([], [])
  | c :: rest =>
    if isDigitOrDot c then
      let (r, rest2) := takeRun rest
      (c :: r, rest2)
    else ([], c :: rest)

/-- The pinned-provider variant's fee regex
`/expected ([\d.]+) A0GI/` applied to the error text: leftmost match,
returning the captured digit/dot run.  Because the character class
excludes the space that must follow the capture, the greedy run either
matches as a whole or the position fails; no shorter backtracked capture
can succeed, so leftmost-maximal-run semantics coincides with the
JavaScript engine's behaviour. -/
def feeMatchV1 : List Char → Option String
  | [] => none
  | c :: rest =>
    if startsWithCl ("expected ".data) (c :: rest) then
      let after := (c :: rest).drop 9
      let (run, rest2) := takeRun after
      if run ≠ [] && startsWithCl (" A0GI".data) rest2 then some (String.mk run)
      else feeMatchV1 rest
    else feeMatchV1 rest

/-- `before` ends with the literal `expected` followed by one whitespace
character — the lookbehind `(?<=expected\s)` of the cache-resolver
variant's regex. -/
def endsWithExpectedWs (before : List Char) : Bool :=
  match before.reverse with
  | w :: 'd' :: 'e' :: 't' :: 'c' :: 'e' :: 'p' :: 'x' :: 'e' :: _ => w.isWhitespace
  | _ => false

/-- The cache-resolver variant's fee regex `/(?<=expected\s)([0-9.]+)/`:
leftmost position whose preceding text satisfies the lookbehind and whose
character is in `[0-9.]`; the capture is the greedy run from there. -/
def feeMatchV2 (s : List Char) : Option String :=
  go [] s
where
  /-- Scan with the already-consumed text accumulated in `before`. -/
  go (before : List Char) : List Char → Option String
    | [] => none
    | c :: rest =>
      if isDigitOrDot c && endsWithExpectedWs before then
        some (String.mk (takeRun (c :: rest)).1)
      else go (before ++ [c]) rest

/-! ## JavaScript `Number(...)` on the captured digit/dot strings -/

/-- Value of a digit string read left to right. -/
def digitsToNat (cs : List Char) : Nat :=
  cs.foldl (fun acc c => acc * 10 + (c.toNat - '0'.toNat)) 0

/-- Split a digit/dot string at its first `'.'`. -/
def splitAtDot : List Char → List Char × Option (List Char)
  | [] => ([], none)
  | c :: rest =>
    if c = '.' then ([], some rest)
    else
      let (a, b) := splitAtDot rest
      (c :: a, b)

/-- JavaScript `Number(s)` for a non-empty string over `[0-9.]`, as an
exact decimal `(numerator, decimalPlaces)`; `none` models `NaN` (more
than one dot, or no digits at all).  `Number("1.5")` is the decimal
`(15, 1)`, i.e. the rational `3/2` — exactly representable in binary
floating point, so the exact-decimal model agrees with JavaScript on the
values that occur in the claims. -/
def parseJsDecimal (s : String) : Option (Int × Nat) :=
  match splitAtDot s.data with
  | (ip, none) => if ip.isEmpty then none else some ((digitsToNat ip : Int), 0)
  | (ip, some fp) =>
    if fp.contains '.' then none
    else if ip.isEmpty && fp.isEmpty then none
    else some (((digitsToNat ip) * 10 ^ fp.length + digitsToNat fp : Int), fp.length)

/-- Rational value of an exact decimal. -/
def jsDecimalVal (p : Int × Nat) : ℚ := (p.1 : ℚ) / (10 : ℚ) ^ p.2

/-! ## Chat messages and content flattening -/

/-- One element of the `messages` array of a chat-completion request. -/
structure ChatMessage where
  role : String
  content : String
deriving DecidableEq

/-- `messages.map((msg) => (msg.role + ": " + msg.content)).join("\n")`
— the content-flattening expression used identically by both gateway
variants. -/
def flattenMessages (messages : List ChatMessage) : String :=
  String.intercalate "\n" (messages.map (fun msg => msg.role ++ ": " ++ msg.content))

/-- Modelled from the spec: each message rendered as
`"<role>: <content>"`, joined by a single newline, in original order
(§4.3 step 3 of the specification).  Stated independently of the source
so that the flattening claim can be settled as a refinement. -/
def renderedJoinSpec : List ChatMessage → String
  | [] => ""
  | [m] => m.role ++ ": " ++ m.content
  | m :: rest => m.role ++ ": " ++ m.content ++ "\n" ++ renderedJoinSpec rest

/-! ## Raw upstream responses -/

/-- `message` object of an upstream choice; `content` is `none` when the
field is absent at runtime (the TypeScript type promises a string, the
wire value may omit it). -/
structure UpstreamMessage where
  content : Option String
deriving DecidableEq

/-- One element of the upstream `choices` array. -/
structure UpstreamChoice where
  message : Option UpstreamMessage
deriving DecidableEq

/-- The raw JSON body returned by an inference call (`InferenceResult`
in `gateway.ts`): every field optional. -/
structure InferenceResult where
  choices : Option (List UpstreamChoice) := none
  error : Option String := none
  id : Option String := none
deriving DecidableEq

/-- Truthiness of `result?.choices?.[0]?.message?.content`: the first
choice exists, carries a message, and the message's content is a
non-empty string. -/
def hasContent (r : InferenceResult) : Bool :=
  match r.choices with
  | some (c :: _) =>
    match c.message with
    | some m =>
      match m.content with
      | some s => s ≠ ""
      | none => false
    | none => false
  | _ => false

instance {ε α : Type} [DecidableEq ε] [DecidableEq α] : DecidableEq (Except ε α) := fun a b =>
  match a, b with
  | .ok x, .ok y => if h : x = y then isTrue (by rw [h]) else isFalse (by simp [h])
  | .error x, .error y => if h : x = y then isTrue (by rw [h]) else isFalse (by simp [h])
  | .ok _, .error _ => isFalse (by simp)
  | .error _, .ok _ => isFalse (by simp)

/-! ## Pinned-provider variant (first `ZeroGOpenAIGateway` in `gateway.ts`) -/

/-- Configuration held by the pinned-provider gateway instance. -/
structure GatewayV1 where
  providerAddress : String
  maxRetries : Nat
  endpoint : String
  model : String
deriving DecidableEq

/-- Outcomes the environment supplies for one iteration of the retry
loop: the result of `getRequestHeaders` (header values abstracted as a
`Nat` token), of `makeInferenceRequest`, and of `settleFee` (invoked only
on a fee-shortfall error).  `Except.error` models a thrown exception. -/
structure AttemptEnv where
  headers : Except String Nat
  call : Except String InferenceResult
  settle : Except String Unit
deriving DecidableEq

/-- Loop state plus execution trace of the pinned-provider retry loop.
`result` is the `result` local of `createChatCompletion`: it keeps its
previous value when an attempt throws.  `usedHeaders` records, per
inference call actually issued, the header token passed to it;
`settleTrace` records each `settleFee` invocation with its provider and
the decimal amount extracted from the error text. -/
structure LoopState where
  result : Option InferenceResult := none
  signCalls : Nat := 0
  inferCalls : Nat := 0
  usedHeaders : List Nat := []
  settleTrace : List (String × Option (Int × Nat)) := []
deriving DecidableEq

/-- One iteration of the `while (retryCount < this.maxRetries)` body.
Returns the updated state and whether the loop `break`s (a valid
response was received).  A throw from `getNewHeaders`,
`makeInferenceRequest` or `settleFee` lands in the attempt's `catch`,
which merely increments `retryCount` — the same continuation as the
non-throwing path, so both branches return `false` (continue). -/
def stepAttempt (provider : String) (e : AttemptEnv) (st : LoopState) : LoopState × Bool :=
  match e.headers with
  | .error _ => ({ st with signCalls := st.signCalls + 1 }, false)
  | .ok h =>
    let st1 := { st with signCalls := st.signCalls + 1 }
    match e.call with
    | .error _ =>
      ({ st1 with inferCalls := st1.inferCalls + 1,
                  usedHeaders := st1.usedHeaders ++ [h] }, false)
    | .ok r =>
      let st2 := { st1 with inferCalls := st1.inferCalls + 1,
                            usedHeaders := st1.usedHeaders ++ [h],
                            result := some r }
      if hasContent r then (st2, true)
      else
        match r.error with
        | some err =>
          if containsSub err.data ("settleFee".data) then
            match feeMatchV1 err.data with
            | some cap =>
              let st3 := { st2 with
                settleTrace := st2.settleTrace ++ [(provider, parseJsDecimal cap)] }
              -- `settleFee` succeeded (fall through to `retryCount++`)
              -- or threw (caught by the attempt's `catch`, which also
              -- does `retryCount++`): both continue the loop.
              match e.settle with
              | .ok _ => (st3, false)
              | .error _ => (st3, false)
            | none => (st2, false)
          else (st2, false)
        | none => (st2, false)

/-- The retry loop, driven by the remaining budget
(`maxRetries - retryCount`) as fuel; `attempt` is the current value of
`retryCount`. -/
def runLoop (provider : String) (env : Nat → AttemptEnv) :
    Nat → Nat → LoopState → LoopState
  | 0, _, st => st
  | fuel + 1, attempt, st =>
    let (st', brk) := stepAttempt provider (env attempt) st
    if brk then st' else runLoop provider env fuel (attempt + 1) st'

/-- The OpenAI-shaped object returned by the pinned-provider
`createChatCompletion` (single choice, fixed `finish_reason`, zeroed
usage). -/
structure ResponseV1 where
  id : String
  object : String
  created : Nat
  model : String
  choiceIndex : Nat
  role : String
  content : String
  finish_reason : String
  prompt_tokens : Nat
  completion_tokens : Nat
  total_tokens : Nat
deriving DecidableEq

/-- The code after the retry loop of the pinned-provider
`createChatCompletion`: reject a missing result or missing `choices`
array, reject empty/absent content, otherwise build the OpenAI-shaped
response with `id: chatID || "1"` and `model: this.model`. -/
def finishV1 (g : GatewayV1) (nowSec : Nat) (result : Option InferenceResult) :
    Except String ResponseV1 :=
  match result with
  | none => .error "No valid completion received"
  | some r =>
    match r.choices with
    | none => .error "No valid completion received"
    | some cs =>
      -- `result?.choices[0]?.message?.content` (an empty `choices`
      -- array passes the `!result.choices` test but yields no content)
      let receivedContent : Option String :=
        match cs with
        | [] => none
        | c :: _ =>
          match c.message with
          | some m => m.content
          | none => none
      match receivedContent with
      | none => .error "No content received."
      | some content =>
        if content = "" then .error "No content received."
        else
          .ok {
            id := match r.id with
                  | some i => if i = "" then "1" else i
                  | none => "1"
            object := "chat.completion"
            created := nowSec
            model := g.model
            choiceIndex := 0
            role := "assistant"
            content := content
            finish_reason := "stop"
            prompt_tokens := 0
            completion_tokens := 0
            total_tokens := 0 }

/-- The pinned-provider `createChatCompletion(_model, messages)`:
flatten the messages, run the bounded retry loop, post-process.  The
`_model` parameter is accepted and ignored, exactly as in the source.
Returns the caller-visible outcome together with the loop trace. -/
def createChatCompletionV1 (g : GatewayV1) (env : Nat → AttemptEnv) (nowSec : Nat)
    ( _model : String) (messages : List ChatMessage) :
    Except String ResponseV1 × LoopState :=
  let _content := flattenMessages messages
  let st := runLoop g.providerAddress env g.maxRetries 0 {}
  (finishV1 g nowSec st.result, st)

/-! ## Cache-resolver variant (second `ZeroGOpenAIGateway` in `gateway.ts`) -/

/-- The fields of `ServiceStructOutput` consumed by the gateway logic
(the remaining fields — url, prices, timestamps — are never read by the
resolution or completion code modelled here). -/
structure Service where
  provider : String
  model : String
deriving DecidableEq

/-- The `serviceCache : Map<string, ServiceStructOutput>`, modelled as
an insertion-ordered association list (JavaScript `Map` iteration order
is insertion order; `set` on an existing key updates in place). -/
abbrev CacheT : Type := List (String × Service)

/-- The cache key `` `${service.provider}:${service.model}` ``. -/
def cacheKey (s : Service) : String := s.provider ++ ":" ++ s.model

/-- JavaScript `Map.prototype.set`: update the existing key in place
(preserving its position), else append. -/
def mapSet : CacheT → String → Service → CacheT
  | [], k, v => [(k, v)]
  | p :: rest, k, v =>
    if p.1 = k then (k, v) :: rest else p :: mapSet rest k v

/-- JavaScript `Map.prototype.get` (first entry with the key). -/
def mapGet : CacheT → String → Option Service
  | [], _ => none
  | p :: rest, k => if p.1 = k then some p.2 else mapGet rest k

/-- The loop body of `getModels`: for each fetched service, `set` it
into the cache under its key and push `{id: model, provider}` onto the
returned list.  The cache is never cleared first. -/
def getModelsV2 (cache : CacheT) (services : List Service) :
    CacheT × List (String × String) :=
  match services with
  | [] => (cache, [])
  | s :: rest =>
    let c' := mapSet cache (cacheKey s) s
    let (cf, ms) := getModelsV2 c' rest
    (cf, (s.model, s.provider) :: ms)

/-- The resolution scan of `createChatCompletion`: iterate the cache
entries in order and take the first whose `service.model === model`
(exact, case-sensitive string equality). -/
def lookupModel : CacheT → String → Option Service
  | [], _ => none
  | p :: rest, model =>
    if p.2.model = model then some p.2 else lookupModel rest model

/-- The error object thrown by the completion call: `errField` is its
`.error` property when that is a string (`none` otherwise); `tag`
stands for the rest of the opaque exception value. -/
structure UpErr where
  errField : Option String
  tag : String
deriving DecidableEq

/-- Exceptions that can escape the cache-resolver
`createChatCompletion`: the gateway's own `throw new Error(...)`
messages, exceptions from broker capabilities (`listService`,
`getServiceMetadata`, `getRequestHeaders`, `settleFee`,
`processResponse`), rethrown completion-call error objects, and the
`TypeError` raised by reading `.message` / `.content` off `undefined`
in `completion.choices[0].message.content`. -/
inductive ThrownV2 where
  | errorMsg (msg : String)
  | broker (msg : String)
  | upstream (e : UpErr)
  | typeError
deriving DecidableEq

/-- Environment of one cache-resolver `createChatCompletion` call: the
outcome of each external interaction it can perform, in program order.
`call1` is the first `openai.chat.completions.create` invocation,
`call2` the single retry issued after a successful fee settlement. -/
structure EnvV2 where
  listServices : Except String (List Service)
  metadata : Except String (String × String)
  headers : Except String Nat
  call1 : Except UpErr InferenceResult
  settle : Except String Unit
  call2 : Except UpErr InferenceResult
  process : Except String Bool
  nowSec : Nat

/-- Execution trace of one cache-resolver `createChatCompletion` call. -/
structure StatsV2 where
  refreshCalls : Nat := 0
  signerCalls : Nat := 0
  completionCalls : Nat := 0
  callHeaders : List Nat := []
  settleTrace : List (String × Option (Int × Nat)) := []
deriving DecidableEq

/-- Model resolution (lines 420–448): cache scan, at most one
`getModels` refresh, rescan, else `throw new Error("Model ... not
found")`.  Returns the resolved service and the number of directory
refreshes performed. -/
def resolveV2 (cache : CacheT) (listSvc : Except String (List Service)) (model : String) :
    Except ThrownV2 Service × Nat :=
  match lookupModel cache model with
  | some s => (.ok s, 0)
  | none =>
    match listSvc with
    | .error e => (.error (.broker e), 1)
    | .ok svcs =>
      match lookupModel (getModelsV2 cache svcs).1 model with
      | some s => (.ok s, 1)
      | none => (.error (.errorMsg ("Model " ++ model ++ " not found")), 1)

/-- The completion call with its fee-settlement handler (lines
475–526): first call; on a thrown error whose `.error` property is a
non-empty string matching the fee regex, settle once and retry once
with the *same* `headers` value; any other thrown error, and any
failure inside the settle/retry block, is rethrown.  Returns the
completion (or the escaping exception) plus the calls/settle trace. -/
def callPhaseV2 (provider : String) (h : Nat) (env : EnvV2) :
    Except ThrownV2 InferenceResult × StatsV2 :=
  match env.call1 with
  | .ok completion =>
    (.ok completion, { completionCalls := 1, callHeaders := [h] })
  | .error u =>
    match u.errField with
    | some estr =>
      if estr = "" then
        -- `error.error &&` is falsy for the empty string: rethrow
        (.error (.upstream u), { completionCalls := 1, callHeaders := [h] })
      else
        match feeMatchV2 estr.data with
        | some cap =>
          let trace := [(provider, parseJsDecimal cap)]
          match env.settle with
          | .error se =>
            -- `catch (settleError) { throw settleError }`
            (.error (.broker se),
             { completionCalls := 1, callHeaders := [h], settleTrace := trace })
          | .ok _ =>
            match env.call2 with
            | .ok completion =>
              (.ok completion,
               { completionCalls := 2, callHeaders := [h, h], settleTrace := trace })
            | .error u2 =>
              -- the retried call's exception is also caught and
              -- rethrown as `settleError`
              (.error (.upstream u2),
               { completionCalls := 2, callHeaders := [h, h], settleTrace := trace })
        | none => (.error (.upstream u), { completionCalls := 1, callHeaders := [h] })
    | none => (.error (.upstream u), { completionCalls := 1, callHeaders := [h] })

/-- The response returned by the cache-resolver `createChatCompletion`.
`id` is `completion.id` passed through with **no** fallback, hence
`Option String`. -/
structure ResponseV2 where
  id : Option String
  object : String
  created : Nat
  model : String
  choiceIndex : Nat
  role : String
  content : String
  finish_reason : String
  prompt_tokens : Nat
  completion_tokens : Nat
  total_tokens : Nat
deriving DecidableEq

/-- Lines 528–571: `if (!completion || !completion.choices) throw`;
`completion.choices[0].message.content` (a `TypeError` when the
`choices` array is empty or the first choice has no `message`);
`if (!receivedContent) throw`; `processResponse` (a failure propagates,
an invalid verdict only warns); then the OpenAI-shaped return with
`id: chatID` and `model` echoing the *requested* model. -/
def finishV2 (requestedModel : String) (nowSec : Nat) (process : Except String Bool)
    (completion : InferenceResult) : Except ThrownV2 ResponseV2 :=
  match completion.choices with
  | none => .error (.errorMsg "No valid completion received")
  | some cs =>
    match cs with
    | [] => .error .typeError
    | c :: _ =>
      match c.message with
      | none => .error .typeError
      | some m =>
        match m.content with
        | none => .error (.errorMsg "No content received.")
        | some content =>
          if content = "" then .error (.errorMsg "No content received.")
          else
            match process with
            | .error e => .error (.broker e)
            | .ok _ =>
              .ok {
                id := completion.id
                object := "chat.completion"
                created := nowSec
                model := requestedModel
                choiceIndex := 0
                role := "assistant"
                content := content
                finish_reason := "stop"
                prompt_tokens := 0
                completion_tokens := 0
                total_tokens := 0 }

/-- The cache-resolver `createChatCompletion(model, messages)`: resolve
(with at most one refresh), fetch service metadata, flatten the
messages, fetch headers once, run the call/settle phase, post-process.
Returns the caller-visible outcome and the execution trace. -/
def createChatCompletionV2 (cache : CacheT) (env : EnvV2) (model : String)
    (messages : List ChatMessage) : Except ThrownV2 ResponseV2 × StatsV2 :=
  match resolveV2 cache env.listServices model with
  | (.error e, rc) => (.error e, { refreshCalls := rc })
  | (.ok svc, rc) =>
    match env.metadata with
    | .error e => (.error (.broker e), { refreshCalls := rc })
    | .ok _meta =>
      let _content := flattenMessages messages
      match env.headers with
      | .error e => (.error (.broker e), { refreshCalls := rc, signerCalls := 1 })
      | .ok h =>
        match callPhaseV2 svc.provider h env with
        | (.error e, cs) =>
          (.error e, { cs with refreshCalls := rc, signerCalls := 1 })
        | (.ok completion, cs) =>
          (finishV2 model env.nowSec env.process completion,
           { cs with refreshCalls := rc, signerCalls := 1 })

/-! ## Flattening (claim C7) -/

/-- Tail of a separator join: the separator before every element. -/
def joinTail (s : String) : List String → String
  | [] => ""
  | a :: as => s ++ a ++ joinTail s as

theorem intercalate_go_eq (s : String) : ∀ (as : List String) (acc : String),
    String.intercalate.go acc s as = acc ++ joinTail s as := by
  intro as
  induction as with
  | nil => intro acc; simp [String.intercalate.go, joinTail]
  | cons a as ih =>
    intro acc
    simp [String.intercalate.go, joinTail, ih, String.append_assoc]

theorem intercalate_cons_eq (s a : String) (as : List String) :
    String.intercalate s (a :: as) = a ++ joinTail s as := by
  simp [String.intercalate, intercalate_go_eq]

/-- **C7.** For every sequence of chat messages, the flattening used by
both `createChatCompletion` variants produces exactly the string
obtained by rendering each message as `"<role>: <content>"` and joining
with a single newline in the original sequence order
(`renderedJoinSpec`, written from the specification's words).
Determinism is immediate: `flattenMessages` is a pure function of the
message list, so the same sequence always yields the identical string,
and order preservation is read off the shape of `renderedJoinSpec`. -/
theorem flattening_renders_and_joins (messages : List ChatMessage) :
    flattenMessages messages = renderedJoinSpec messages := by
  induction messages with
  | nil => rfl
  | cons m rest ih =>
    cases rest with
    | nil => rfl
    | cons m2 rest2 =>
      rw [show renderedJoinSpec (m :: m2 :: rest2) =
            m.role ++ ": " ++ m.content ++ "\n" ++ renderedJoinSpec (m2 :: rest2) from rfl,
          ← ih]
      simp [flattenMessages, intercalate_cons_eq, joinTail, String.append_assoc]

/-! ## Cache refresh semantics (claim C8) -/

theorem mapGet_mapSet (k k' : String) (v : Service) : ∀ (m : CacheT),
    mapGet (mapSet m k v) k' = if k' = k then some v else mapGet m k' := by
  intro m
  induction m with
  | nil =>
    by_cases h : k' = k
    · simp [mapSet, mapGet, h]
    · have h' : ¬ k = k' := fun he => h he.symm
      simp [mapSet, mapGet, h, h']
  | cons p rest ih =>
    by_cases hpk : p.1 = k
    · subst hpk
      by_cases h : k' = p.1
      · subst h; simp [mapSet, mapGet]
      · have h' : ¬ p.1 = k' := fun he => h he.symm
        simp [mapSet, mapGet, h, h']
    · by_cases hp' : p.1 = k'
      · have hk : ¬ k' = k := fun he => hpk ((hp'.trans he))
        simp [mapSet, hpk, mapGet, hp', hk]
      · simp [mapSet, hpk, mapGet, hp', ih]

/-- Values stored by `getModelsV2` come from the old cache or the
fetched list. -/
theorem getModelsV2_mapGet (k : String) : ∀ (svcs : List Service) (cache : CacheT),
    mapGet (getModelsV2 cache svcs).1 k =
      (match svcs.reverse.find? (fun s => cacheKey s = k) with
       | some s => some s
       | none => mapGet cache k) := by
  intro svcs
  induction svcs with
  | nil => intro cache; simp [getModelsV2]
  | cons s rest ih =>
    intro cache
    have hrec : (getModelsV2 cache (s :: rest)).1 =
        (getModelsV2 (mapSet cache (cacheKey s) s) rest).1 := by
      simp [getModelsV2]
    rw [hrec, ih, List.reverse_cons, List.find?_append]
    cases hr : rest.reverse.find? (fun s' => cacheKey s' = k) with
    | some s' => simp
    | none =>
      simp only [Option.none_or]
      by_cases hk : cacheKey s = k
      · simp [List.find?, hk, mapGet_mapSet]
      · have hk' : ¬ k = cacheKey s := fun he => hk he.symm
        simp [List.find?, hk, hk', mapGet_mapSet]

theorem getModelsV2_models (svcs : List Service) : ∀ (cache : CacheT),
    (getModelsV2 cache svcs).2 = svcs.map (fun s => (s.model, s.provider)) := by
  induction svcs with
  | nil => intro cache; simp [getModelsV2]
  | cons s rest ih => intro cache; simp [getModelsV2, ih]

/-- **C8 (amended).** A directory refresh *merges* the fetched services
into the cache rather than replacing it: after `getModels`, looking up
any key yields the last fetched service with that key if the key was
fetched, and otherwise the unchanged entry of the previous snapshot —
stale entries whose keys are not re-fetched survive.  The returned
model list enumerates the fetch in order. -/
theorem refresh_merges_cache (cache : CacheT) (svcs : List Service) (k : String) :
    mapGet (getModelsV2 cache svcs).1 k =
      (match svcs.reverse.find? (fun s => cacheKey s = k) with
       | some s => some s
       | none => mapGet cache k) ∧
    (getModelsV2 cache svcs).2 = svcs.map (fun s => (s.model, s.provider)) :=
  ⟨getModelsV2_mapGet k svcs cache, getModelsV2_models svcs cache⟩

/-- A cache entry present before a refresh whose key is absent from the
fetched directory listing. -/
def staleService : Service := ⟨"p1", "m1"⟩

/-- The only service returned by the refresh of the counterexample. -/
def freshService : Service := ⟨"p2", "m2"⟩

/-- **C8 counterexample.** Refreshing a cache that holds `p1:m1` with a
directory listing containing only `p2:m2` leaves the stale `p1:m1`
entry in the cache: the resulting cache is the two-entry merge, not
"exactly the entries from that fetch", contradicting the claim that no
stale entries from earlier snapshots survive. -/
theorem refresh_keeps_stale_entry :
    (getModelsV2 [(cacheKey staleService, staleService)] [freshService]).1 =
      [(cacheKey staleService, staleService), (cacheKey freshService, freshService)] ∧
    mapGet (getModelsV2 [(cacheKey staleService, staleService)] [freshService]).1
      (cacheKey staleService) = some staleService ∧
    staleService ∉ [freshService] := by decide

/-! ## Outcome shape of the two variants (claims C6, C10) -/

/-- A successful pinned-provider outcome carries non-empty content. -/
def okContentNonemptyV1 : Except String ResponseV1 → Bool
  | .ok r => r.content != ""
  | .error _ => true

/-- A successful cache-resolver outcome carries non-empty content. -/
def okContentNonemptyV2 : Except ThrownV2 ResponseV2 → Bool
  | .ok r => r.content != ""
  | .error _ => true

theorem finishV1_content_nonempty (g : GatewayV1) (nowSec : Nat)
    (result : Option InferenceResult) :
    okContentNonemptyV1 (finishV1 g nowSec result) = true := by
  cases result with
  | none => rfl
  | some r =>
    cases hc : r.choices with
    | none => simp [finishV1, hc, okContentNonemptyV1]
    | some cs =>
      cases cs with
      | nil => simp [finishV1, hc, okContentNonemptyV1]
      | cons c rest =>
        cases hm : c.message with
        | none => simp [finishV1, hc, hm, okContentNonemptyV1]
        | some m =>
          cases hcont : m.content with
          | none => simp [finishV1, hc, hm, hcont, okContentNonemptyV1]
          | some s =>
            by_cases hs : s = "" <;>
              simp [finishV1, hc, hm, hcont, hs, okContentNonemptyV1]

theorem finishV2_content_nonempty (requestedModel : String) (nowSec : Nat)
    (process : Except String Bool) (completion : InferenceResult) :
    okContentNonemptyV2 (finishV2 requestedModel nowSec process completion) = true := by
  cases hc : completion.choices with
  | none => simp [finishV2, hc, okContentNonemptyV2]
  | some cs =>
    cases cs with
    | nil => simp [finishV2, hc, okContentNonemptyV2]
    | cons c rest =>
      cases hm : c.message with
      | none => simp [finishV2, hc, hm, okContentNonemptyV2]
      | some m =>
        cases hcont : m.content with
        | none => simp [finishV2, hc, hm, hcont, okContentNonemptyV2]
        | some s =>
          by_cases hs : s = ""
          · simp [finishV2, hc, hm, hcont, hs, okContentNonemptyV2]
          · cases process <;> simp [finishV2, hc, hm, hcont, hs, okContentNonemptyV2]

/-- Every cache-resolver outcome is either an escaping exception or the
post-processing `finishV2` of some completion the call phase produced. -/
theorem createV2_result_cases (cache : CacheT) (env : EnvV2) (m : String)
    (messages : List ChatMessage) :
    (∃ e, (createChatCompletionV2 cache env m messages).1 = .error e) ∨
    (∃ completion, (createChatCompletionV2 cache env m messages).1 =
       finishV2 m env.nowSec env.process completion) := by
  rcases hr : resolveV2 cache env.listServices m with ⟨res, rc⟩
  cases res with
  | error e =>
    refine Or.inl ⟨e, ?_⟩
    simp only [createChatCompletionV2, hr]
  | ok svc =>
    cases hm : env.metadata with
    | error e =>
      refine Or.inl ⟨.broker e, ?_⟩
      simp only [createChatCompletionV2, hr, hm]
    | ok md =>
      cases hh : env.headers with
      | error e =>
        refine Or.inl ⟨.broker e, ?_⟩
        simp only [createChatCompletionV2, hr, hm, hh]
      | ok h =>
        rcases hc : callPhaseV2 svc.provider h env with ⟨cres, cs⟩
        cases cres with
        | error e =>
          refine Or.inl ⟨e, ?_⟩
          simp only [createChatCompletionV2, hr, hm, hh, hc]
        | ok completion =>
          refine Or.inr ⟨completion, ?_⟩
          simp only [createChatCompletionV2, hr, hm, hh, hc]

/-- **C6.** Every `CompletionResult` returned by either variant of
`createChatCompletion` has non-empty content: a raw upstream response
whose first choice's message content is empty or absent never becomes a
successful result.  In the pinned-provider loop such a response fails
the `result?.choices?.[0]?.message?.content` test (so the loop retries
rather than `break`ing) and, after the loop, the post-processing throws
`"No valid completion received"` / `"No content received."`; in the
cache-resolver variant the corresponding checks throw before the
OpenAI-shaped object is built. -/
theorem success_implies_nonempty_content (g : GatewayV1) (env : Nat → AttemptEnv)
    (nowSec : Nat) (modelArg : String) (messages : List ChatMessage)
    (cache : CacheT) (env2 : EnvV2) (m2 : String) (messages2 : List ChatMessage) :
    okContentNonemptyV1 (createChatCompletionV1 g env nowSec modelArg messages).1 = true ∧
    okContentNonemptyV2 (createChatCompletionV2 cache env2 m2 messages2).1 = true := by
  constructor
  · exact finishV1_content_nonempty g nowSec _
  · rcases createV2_result_cases cache env2 m2 messages2 with ⟨e, he⟩ | ⟨completion, hc⟩
    · rw [he]; rfl
    · rw [hc]; exact finishV2_content_nonempty m2 env2.nowSec env2.process completion

/-- The pinned-provider variant's caller-visible outcome: on success the
response's `model` is the configured service model; on failure the error
is one of the two post-loop messages (in particular never a
model-resolution failure). -/
def v1OutcomeShape (g : GatewayV1) : Except String ResponseV1 → Bool
  | .ok r => r.model == g.model
  | .error e => e == "No valid completion received" || e == "No content received."

theorem finishV1_outcome_shape (g : GatewayV1) (nowSec : Nat)
    (result : Option InferenceResult) :
    v1OutcomeShape g (finishV1 g nowSec result) = true := by
  cases result with
  | none => rfl
  | some r =>
    cases hc : r.choices with
    | none => simp [finishV1, hc, v1OutcomeShape]
    | some cs =>
      cases cs with
      | nil => simp [finishV1, hc, v1OutcomeShape]
      | cons c rest =>
        cases hm : c.message with
        | none => simp [finishV1, hc, hm, v1OutcomeShape]
        | some m =>
          cases hcont : m.content with
          | none => simp [finishV1, hc, hm, hcont, v1OutcomeShape]
          | some s =>
            by_cases hs : s = "" <;>
              simp [finishV1, hc, hm, hcont, hs, v1OutcomeShape]

/-- **C10.** The pinned-provider `createChatCompletion` ignores its
`_model` argument entirely: the whole outcome (response and trace) is
identical for any two requested model ids, so no model resolution
occurs and no `ModelNotFound` failure is possible — every failure is
one of the two post-loop errors — and on success the `model` field of
the response is the configured service model `g.model`, not the
caller-supplied id. -/
theorem pinned_variant_ignores_model_argument (g : GatewayV1) (env : Nat → AttemptEnv)
    (nowSec : Nat) (m1 m2 : String) (messages : List ChatMessage) :
    createChatCompletionV1 g env nowSec m1 messages =
      createChatCompletionV1 g env nowSec m2 messages ∧
    v1OutcomeShape g (createChatCompletionV1 g env nowSec m1 messages).1 = true :=
  ⟨rfl, finishV1_outcome_shape g nowSec _⟩

/-! ## Retry-loop lemmas (claims C1, C3, C4, C5, C9) -/

/-- A "transient, fee-unrelated" attempt outcome: the inference call
either throws, or returns a result with no usable content whose error
text (if any) does not mention `settleFee`. -/
def transientNonFeeCall : Except String InferenceResult → Bool
  | .error _ => true
  | .ok r => !hasContent r &&
      (match r.error with
       | some e => !containsSub e.data ("settleFee".data)
       | none => true)

/-- One loop iteration on a transient, fee-unrelated attempt: headers
are fetched, the call is issued, no settlement happens, the loop
continues, and the final-result invariant (never usable content) is
preserved. -/
theorem stepAttempt_transient (provider : String) (e : AttemptEnv) (st : LoopState) (h : Nat)
    (hh : e.headers = .ok h) (hc : transientNonFeeCall e.call = true)
    (hres : ∀ r, st.result = some r → hasContent r = false) :
    ∃ st', stepAttempt provider e st = (st', false) ∧
      st'.signCalls = st.signCalls + 1 ∧
      st'.inferCalls = st.inferCalls + 1 ∧
      st'.settleTrace = st.settleTrace ∧
      st'.usedHeaders = st.usedHeaders ++ [h] ∧
      (∀ r, st'.result = some r → hasContent r = false) := by
  cases hcall : e.call with
  | error msg =>
    refine ⟨{ st with
        signCalls := st.signCalls + 1
        inferCalls := st.inferCalls + 1
        usedHeaders := st.usedHeaders ++ [h] }, ?_, rfl, rfl, rfl, rfl, ?_⟩
    · simp only [stepAttempt, hh, hcall]
    · intro r hr
      exact hres r hr
  | ok r =>
    rw [hcall] at hc
    simp only [transientNonFeeCall, Bool.and_eq_true, Bool.not_eq_true'] at hc
    obtain ⟨hnc, herr⟩ := hc
    refine ⟨{ st with
        signCalls := st.signCalls + 1
        inferCalls := st.inferCalls + 1
        usedHeaders := st.usedHeaders ++ [h]
        result := some r }, ?_, rfl, rfl, rfl, rfl, ?_⟩
    · simp only [stepAttempt, hh, hcall, hnc, Bool.false_eq_true, if_false]
      cases he : r.error with
      | none => rfl
      | some err =>
        rw [he] at herr
        simp only [Bool.not_eq_true'] at herr
        simp only [herr, Bool.false_eq_true, if_false]
    · intro r' hr'
      have hx : some r = some r' := hr'
      injection hx with hrr
      rw [← hrr]
      exact hnc

/-- Running the loop over a stretch of transient, fee-unrelated
attempts with successful signing: every attempt consumes one signing
call and one inference call with its own fresh header, no settlement
occurs, and no usable content is ever stored. -/
theorem runLoop_transient (provider : String) (env : Nat → AttemptEnv) (hd : Nat → Nat) :
    ∀ (fuel attempt : Nat) (st : LoopState),
    (∀ i, attempt ≤ i → i < attempt + fuel →
        (env i).headers = .ok (hd i) ∧ transientNonFeeCall (env i).call = true) →
    (∀ r, st.result = some r → hasContent r = false) →
    (runLoop provider env fuel attempt st).signCalls = st.signCalls + fuel ∧
    (runLoop provider env fuel attempt st).inferCalls = st.inferCalls + fuel ∧
    (runLoop provider env fuel attempt st).settleTrace = st.settleTrace ∧
    (runLoop provider env fuel attempt st).usedHeaders =
      st.usedHeaders ++ (List.range fuel).map (fun j => hd (attempt + j)) ∧
    (∀ r, (runLoop provider env fuel attempt st).result = some r → hasContent r = false) := by
  intro fuel
  induction fuel with
  | zero =>
    intro attempt st _ hres
    refine ⟨rfl, rfl, rfl, by simp [runLoop], hres⟩
  | succ n ih =>
    intro attempt st henv hres
    obtain ⟨hh, hcall⟩ := henv attempt (Nat.le_refl _) (by omega)
    obtain ⟨st', hstep, hsign, hinfer, htrace, hheads, hres'⟩ :=
      stepAttempt_transient provider (env attempt) st (hd attempt) hh hcall hres
    have hrun : runLoop provider env (n + 1) attempt st =
        runLoop provider env n (attempt + 1) st' := by
      simp [runLoop, hstep]
    have henv' : ∀ i, attempt + 1 ≤ i → i < attempt + 1 + n →
        (env i).headers = .ok (hd i) ∧ transientNonFeeCall (env i).call = true := by
      intro i h1 h2
      exact henv i (by omega) (by omega)
    obtain ⟨s1, s2, s3, s4, s5⟩ := ih (attempt + 1) st' henv' hres'
    rw [hrun]
    refine ⟨?_, ?_, ?_, ?_, s5⟩
    · rw [s1, hsign]; omega
    · rw [s2, hinfer]; omega
    · rw [s3, htrace]
    · rw [s4, hheads, List.append_assoc]
      congr 1
      have hfun : (fun j => hd (attempt + 1 + j)) = (fun j => hd (attempt + (j + 1))) := by
        funext j
        congr 1
        omega
      rw [List.range_succ_eq_map, List.map_cons, List.map_map, hfun]
      simp [Function.comp, Nat.add_comm]

/-- The caller-visible failure after the retry budget is exhausted: one
of the two post-loop `throw new Error(...)` messages — the code's
realization of the specification's `ExhaustedRetries` outcome. -/
def isExhaustedOutcome : Except String ResponseV1 → Bool
  | .ok _ => false
  | .error e => e == "No valid completion received" || e == "No content received."

theorem finishV1_exhausted (g : GatewayV1) (nowSec : Nat) (result : Option InferenceResult)
    (hres : ∀ r, result = some r → hasContent r = false) :
    isExhaustedOutcome (finishV1 g nowSec result) = true := by
  cases result with
  | none => rfl
  | some r =>
    have hr := hres r rfl
    cases hc : r.choices with
    | none => simp [finishV1, hc, isExhaustedOutcome]
    | some cs =>
      cases cs with
      | nil => simp [finishV1, hc, isExhaustedOutcome]
      | cons c rest =>
        cases hm : c.message with
        | none => simp [finishV1, hc, hm, isExhaustedOutcome]
        | some m =>
          cases hcont : m.content with
          | none => simp [finishV1, hc, hm, hcont, isExhaustedOutcome]
          | some s =>
            have hs : s = "" := by
              simp [hasContent, hc, hm, hcont] at hr
              exact hr
            simp [finishV1, hc, hm, hcont, hs, isExhaustedOutcome]

/-- **C1.** When every attempt yields a transient error unrelated to
fees (a thrown call, or an error result whose text never mentions
`settleFee`) and signing succeeds each time, the pinned-provider retry
loop performs exactly `maxRetries` attempts and no more: exactly
`maxRetries` signing calls and `maxRetries` inference calls, zero
settlement calls (so in particular no fee is ever settled after the
budget is exhausted, the trace being empty), and the call terminates
with the exhausted-retries failure. -/
theorem transient_errors_exhaust_retries (g : GatewayV1) (env : Nat → AttemptEnv)
    (hd : Nat → Nat) (nowSec : Nat) (modelArg : String) (messages : List ChatMessage)
    (henv : ∀ i, i < g.maxRetries →
        (env i).headers = .ok (hd i) ∧ transientNonFeeCall (env i).call = true) :
    (createChatCompletionV1 g env nowSec modelArg messages).2.signCalls = g.maxRetries ∧
    (createChatCompletionV1 g env nowSec modelArg messages).2.inferCalls = g.maxRetries ∧
    (createChatCompletionV1 g env nowSec modelArg messages).2.settleTrace = [] ∧
    isExhaustedOutcome (createChatCompletionV1 g env nowSec modelArg messages).1 = true := by
  have h0 : ∀ i, 0 ≤ i → i < 0 + g.maxRetries →
      (env i).headers = .ok (hd i) ∧ transientNonFeeCall (env i).call = true := by
    intro i _ h2
    exact henv i (by omega)
  obtain ⟨s1, s2, s3, s4, s5⟩ :=
    runLoop_transient g.providerAddress env hd g.maxRetries 0 {} h0
      (fun r hr => Option.noConfusion hr)
  refine ⟨?_, ?_, ?_, ?_⟩
  · simpa [createChatCompletionV1] using s1
  · simpa [createChatCompletionV1] using s2
  · simpa [createChatCompletionV1] using s3
  · simp only [createChatCompletionV1]
    exact finishV1_exhausted g nowSec _ s5

/-- Concrete gateway configuration for the C1 witness
(`maxRetries = 3`, mirroring scenario D). -/
def gWitC1 : GatewayV1 := ⟨"p", 3, "endpoint", "m"⟩

/-- Environment for the C1 witness: signing succeeds, every inference
call throws a network error. -/
def envWitC1 : Nat → AttemptEnv := fun _ =>
  { headers := .ok 0, call := .error "network down", settle := .ok () }

/-- Witness for C1: with `maxRetries = 3` and every attempt failing
transiently, exactly 3 signing and 3 inference calls happen, no fee is
settled, and the call fails exhausted. -/
theorem transient_errors_exhaust_retries_witness :
    (createChatCompletionV1 gWitC1 envWitC1 0 "any-model" []).2.signCalls = 3 ∧
    (createChatCompletionV1 gWitC1 envWitC1 0 "any-model" []).2.inferCalls = 3 ∧
    (createChatCompletionV1 gWitC1 envWitC1 0 "any-model" []).2.settleTrace = [] ∧
    isExhaustedOutcome (createChatCompletionV1 gWitC1 envWitC1 0 "any-model" []).1 = true :=
  transient_errors_exhaust_retries gWitC1 envWitC1 (fun _ => 0) 0 "any-model" [] (by decide)

/-! ## Header usage (claim C5) -/

/-- All inference calls of a request used one and the same header
value. -/
def allSameHeaders : List Nat → Bool
  | [] => true
  | h :: t => t.all (fun x => x == h)

/-- The call phase of the cache-resolver variant issues at most two
completion calls, and every one of them uses the single header value
fetched before the first call. -/
theorem callPhaseV2_headers (provider : String) (h : Nat) (env : EnvV2) :
    allSameHeaders (callPhaseV2 provider h env).2.callHeaders = true ∧
    (callPhaseV2 provider h env).2.completionCalls ≤ 2 := by
  cases h1 : env.call1 with
  | ok c => simp [callPhaseV2, h1, allSameHeaders]
  | error u =>
    cases h2 : u.errField with
    | none => simp [callPhaseV2, h1, h2, allSameHeaders]
    | some estr =>
      by_cases he : estr = ""
      · simp [callPhaseV2, h1, h2, he, allSameHeaders]
      · cases h3 : feeMatchV2 estr.data with
        | none => simp [callPhaseV2, h1, h2, he, h3, allSameHeaders]
        | some cap =>
          cases h4 : env.settle with
          | error se => simp [callPhaseV2, h1, h2, he, h3, h4, allSameHeaders]
          | ok u' =>
            cases h5 : env.call2 with
            | ok c2 => simp [callPhaseV2, h1, h2, he, h3, h4, h5, allSameHeaders]
            | error u2 => simp [callPhaseV2, h1, h2, he, h3, h4, h5, allSameHeaders]

/-- The cache-resolver variant calls the request signer at most once
per request, and every completion call it issues reuses that single
header value. -/
theorem createV2_single_signing (cache : CacheT) (env : EnvV2) (m : String)
    (messages : List ChatMessage) :
    (createChatCompletionV2 cache env m messages).2.signerCalls ≤ 1 ∧
    allSameHeaders (createChatCompletionV2 cache env m messages).2.callHeaders = true := by
  rcases hr : resolveV2 cache env.listServices m with ⟨res, rc⟩
  cases res with
  | error e => simp [createChatCompletionV2, hr, allSameHeaders]
  | ok svc =>
    cases hm : env.metadata with
    | error e => simp [createChatCompletionV2, hr, hm, allSameHeaders]
    | ok md =>
      cases hh : env.headers with
      | error e => simp [createChatCompletionV2, hr, hm, hh, allSameHeaders]
      | ok h =>
        rcases hc : callPhaseV2 svc.provider h env with ⟨cres, cs⟩
        have hcs := callPhaseV2_headers svc.provider h env
        rw [hc] at hcs
        cases cres with
        | error e => simpa [createChatCompletionV2, hr, hm, hh, hc] using hcs.1
        | ok completion => simpa [createChatCompletionV2, hr, hm, hh, hc] using hcs.1

/-- **C5 (amended).** The two variants differ.  In the pinned-provider
variant every attempt obtains fresh headers from `getRequestHeaders`
before its inference call and uses exactly its own headers (over a run
of transient attempts the headers used per call are precisely the
per-attempt fresh values, one signing call per attempt).  In the
cache-resolver variant, however, `getRequestHeaders` is invoked at most
once per request and every completion call — including the retry
immediately following a fee settlement — reuses that same single
header value; headers are *not* re-fetched for the post-settlement
retry. -/
theorem headers_fresh_per_attempt_v1_reused_v2 (g : GatewayV1) (env : Nat → AttemptEnv)
    (hd : Nat → Nat) (nowSec : Nat) (modelArg : String) (messages : List ChatMessage)
    (cache : CacheT) (env2 : EnvV2) (m2 : String) (messages2 : List ChatMessage)
    (henv : ∀ i, i < g.maxRetries →
        (env i).headers = .ok (hd i) ∧ transientNonFeeCall (env i).call = true) :
    (createChatCompletionV1 g env nowSec modelArg messages).2.usedHeaders =
      (List.range g.maxRetries).map hd ∧
    (createChatCompletionV1 g env nowSec modelArg messages).2.signCalls = g.maxRetries ∧
    (createChatCompletionV2 cache env2 m2 messages2).2.signerCalls ≤ 1 ∧
    allSameHeaders (createChatCompletionV2 cache env2 m2 messages2).2.callHeaders = true := by
  have h0 : ∀ i, 0 ≤ i → i < 0 + g.maxRetries →
      (env i).headers = .ok (hd i) ∧ transientNonFeeCall (env i).call = true := by
    intro i _ h2
    exact henv i (by omega)
  obtain ⟨s1, _s2, _s3, s4, _s5⟩ :=
    runLoop_transient g.providerAddress env hd g.maxRetries 0 {} h0
      (fun r hr => Option.noConfusion hr)
  obtain ⟨v1, v2⟩ := createV2_single_signing cache env2 m2 messages2
  refine ⟨?_, ?_, v1, v2⟩
  · simp only [createChatCompletionV1]
    rw [s4]
    simp
  · simpa [createChatCompletionV1] using s1

/-- Service pinned in the caches of the C5 / C4 / C9 concrete
environments. -/
def svcWit : Service := ⟨"prov", "mod"⟩

/-- A fully valid upstream completion (non-empty content, id present). -/
def goodCompletion : InferenceResult :=
  { choices := some [⟨some ⟨some "hello"⟩⟩], error := none, id := some "chat-1" }

/-- C5 witness environment for the cache-resolver variant: resolution
hits the cache, the first call throws a fee-shortfall error, settlement
succeeds, the retry succeeds. -/
def envWitC5 : EnvV2 :=
  { listServices := .ok []
    metadata := .ok ("http://e", "mod")
    headers := .ok 7
    call1 := .error ⟨some "settleFee: expected 2.0 A0GI", "err-obj"⟩
    settle := .ok ()
    call2 := .ok goodCompletion
    process := .ok true
    nowSec := 0 }

/-- Pinned-provider configuration for the C5 witness (`maxRetries = 2`). -/
def gWitC5 : GatewayV1 := ⟨"p", 2, "endpoint", "m"⟩

/-- Pinned-provider environment for the C5 witness: attempt `i` gets the
fresh header token `i + 40`, every call fails transiently. -/
def envWitC5v1 : Nat → AttemptEnv := fun i =>
  { headers := .ok (i + 40), call := .error "boom", settle := .ok () }

/-- Witness for the amended C5: the pinned-provider side uses one fresh
header per attempt; the cache-resolver side of the same theorem applied
to the settle-and-retry environment shows a single signing call with
all completion calls sharing its header value. -/
theorem headers_fresh_per_attempt_v1_reused_v2_witness :
    (createChatCompletionV1 gWitC5 envWitC5v1 0 "any-model" []).2.usedHeaders =
      (List.range 2).map (fun i => i + 40) ∧
    (createChatCompletionV1 gWitC5 envWitC5v1 0 "any-model" []).2.signCalls = 2 ∧
    (createChatCompletionV2 [(cacheKey svcWit, svcWit)] envWitC5 "mod"
        [⟨"user", "hi"⟩]).2.signerCalls ≤ 1 ∧
    allSameHeaders (createChatCompletionV2 [(cacheKey svcWit, svcWit)] envWitC5 "mod"
        [⟨"user", "hi"⟩]).2.callHeaders = true :=
  headers_fresh_per_attempt_v1_reused_v2 gWitC5 envWitC5v1 (fun i => i + 40) 0 "any-model" []
    [(cacheKey svcWit, svcWit)] envWitC5 "mod" [⟨"user", "hi"⟩] (by decide)

/-- **C5 counterexample.**  A concrete cache-resolver execution in
which the first completion call fails with a fee shortfall, settlement
succeeds and the retry succeeds: the request signer is called exactly
once, yet two completion calls are issued and both use the same header
value `7` — the post-settlement retry reuses the first attempt's
headers, contradicting the claim that fresh headers are obtained before
the inference call of every attempt and never reused. -/
theorem post_settlement_retry_reuses_headers :
    (createChatCompletionV2 [(cacheKey svcWit, svcWit)] envWitC5 "mod"
        [⟨"user", "hi"⟩]).2.signerCalls = 1 ∧
    (createChatCompletionV2 [(cacheKey svcWit, svcWit)] envWitC5 "mod"
        [⟨"user", "hi"⟩]).2.completionCalls = 2 ∧
    (createChatCompletionV2 [(cacheKey svcWit, svcWit)] envWitC5 "mod"
        [⟨"user", "hi"⟩]).2.callHeaders = [7, 7] := by decide

/-! ## Single-step loop lemmas for concrete scenarios (claims C3, C4, C9) -/

/-- A loop iteration whose call returns a valid response `break`s with
the response stored and no settlement. -/
theorem stepAttempt_break (provider : String) (e : AttemptEnv) (st : LoopState) (h : Nat)
    (r : InferenceResult) (hh : e.headers = .ok h) (hc : e.call = .ok r)
    (hr : hasContent r = true) :
    stepAttempt provider e st =
      ({ st with
          signCalls := st.signCalls + 1
          inferCalls := st.inferCalls + 1
          usedHeaders := st.usedHeaders ++ [h]
          result := some r }, true) := by
  simp only [stepAttempt, hh, hc, hr, if_true]

/-- A loop iteration whose call returns a fee-shortfall error (no
content, error text mentioning `settleFee` and matching the fee regex)
invokes `settleFee` with the extracted decimal and continues — whether
the settlement succeeds or throws. -/
theorem stepAttempt_fee (provider : String) (e : AttemptEnv) (st : LoopState) (h : Nat)
    (r : InferenceResult) (err cap : String)
    (hh : e.headers = .ok h) (hc : e.call = .ok r) (hnc : hasContent r = false)
    (herr : r.error = some err)
    (hsub : containsSub err.data ("settleFee".data) = true)
    (hfm : feeMatchV1 err.data = some cap) :
    stepAttempt provider e st =
      ({ st with
          signCalls := st.signCalls + 1
          inferCalls := st.inferCalls + 1
          usedHeaders := st.usedHeaders ++ [h]
          result := some r
          settleTrace := st.settleTrace ++ [(provider, parseJsDecimal cap)] }, false) := by
  simp only [stepAttempt, hh, hc, hnc, Bool.false_eq_true, if_false, herr, hsub, if_true, hfm]
  cases e.settle <;> rfl

/-- A result passing the validity test decomposes into a first choice
with a message carrying non-empty content. -/
theorem hasContent_true_elim (r : InferenceResult) (hr : hasContent r = true) :
    ∃ c rest m s, r.choices = some (c :: rest) ∧ c.message = some m ∧
      m.content = some s ∧ s ≠ "" := by
  rcases hch : r.choices with _ | cs
  · rw [hasContent, hch] at hr
    exact absurd hr (by simp)
  · cases cs with
    | nil =>
      rw [hasContent, hch] at hr
      exact absurd hr (by simp)
    | cons c rest =>
      rcases hm : c.message with _ | m
      · simp only [hasContent, hch, hm] at hr
        exact absurd hr (by simp)
      · rcases hc : m.content with _ | s
        · simp only [hasContent, hch, hm, hc] at hr
          exact absurd hr (by simp)
        · refine ⟨c, rest, m, s, rfl, hm, hc, ?_⟩
          simp only [hasContent, hch, hm, hc] at hr
          simpa using hr

/-- The post-loop processing on a valid result returns the OpenAI-shaped
response: `id` from the result with fallback `"1"`, the configured
model, one assistant choice with `finish_reason: "stop"`, zeroed
usage. -/
theorem finishV1_success (g : GatewayV1) (nowSec : Nat) (r : InferenceResult)
    (c : UpstreamChoice) (rest : List UpstreamChoice) (m : UpstreamMessage) (s : String)
    (hch : r.choices = some (c :: rest)) (hm : c.message = some m)
    (hc : m.content = some s) (hs : s ≠ "") :
    finishV1 g nowSec (some r) = .ok {
      id := match r.id with
            | some i => if i = "" then "1" else i
            | none => "1"
      object := "chat.completion"
      created := nowSec
      model := g.model
      choiceIndex := 0
      role := "assistant"
      content := s
      finish_reason := "stop"
      prompt_tokens := 0
      completion_tokens := 0
      total_tokens := 0 } := by
  simp [finishV1, hch, hm, hc, hs]

/-- **C3.** When an attempt of the pinned-provider loop returns an
error whose text contains the fee-shortfall pattern, the extracted
decimal amount is settled for the configured provider exactly once
before the next attempt: with a fee-shortfall on attempt 0, a
successful settlement, and a valid response on attempt 1, the whole
call succeeds with exactly one settlement call carrying the extracted
amount, two signing calls and two inference calls.  The same extraction
drives the cache-resolver variant: its single settlement carries the
amount captured by its regex, followed by the one retry.  Concretely,
`"expected 1.5 A0GI"` extracts the capture `"1.5"`, i.e. the decimal
`(15, 1)` of rational value `3/2`. -/
theorem fee_shortfall_settles_extracted_amount (g : GatewayV1) (env : Nat → AttemptEnv)
    (nowSec : Nat) (modelArg : String) (messages : List ChatMessage)
    (k h0 h1 : Nat) (r0 r1 : InferenceResult) (e0 cap : String)
    (cache : CacheT) (env2 : EnvV2) (m2 : String) (messages2 : List ChatMessage)
    (svc2 : Service) (md2 : String × String) (h2v : Nat) (u : UpErr)
    (es2 cap2 : String) (comp2 : InferenceResult)
    (hmax : g.maxRetries = k + 1 + 1)
    (hh0 : (env 0).headers = .ok h0) (hc0 : (env 0).call = .ok r0)
    (hnc0 : hasContent r0 = false) (herr0 : r0.error = some e0)
    (hsub0 : containsSub e0.data ("settleFee".data) = true)
    (hfm0 : feeMatchV1 e0.data = some cap)
    (hh1 : (env 1).headers = .ok h1) (hc1 : (env 1).call = .ok r1)
    (hcont1 : hasContent r1 = true)
    (hres2 : lookupModel cache m2 = some svc2)
    (hmeta2 : env2.metadata = .ok md2) (hhd2 : env2.headers = .ok h2v)
    (hcall12 : env2.call1 = .error u) (herrF2 : u.errField = some es2)
    (hne2 : es2 ≠ "") (hfm2 : feeMatchV2 es2.data = some cap2)
    (hsettle2 : env2.settle = .ok ()) (hcall22 : env2.call2 = .ok comp2) :
    (createChatCompletionV1 g env nowSec modelArg messages).2.settleTrace =
      [(g.providerAddress, parseJsDecimal cap)] ∧
    (createChatCompletionV1 g env nowSec modelArg messages).2.signCalls = 2 ∧
    (createChatCompletionV1 g env nowSec modelArg messages).2.inferCalls = 2 ∧
    isExhaustedOutcome (createChatCompletionV1 g env nowSec modelArg messages).1 = false ∧
    (createChatCompletionV2 cache env2 m2 messages2).2.settleTrace =
      [(svc2.provider, parseJsDecimal cap2)] ∧
    (createChatCompletionV2 cache env2 m2 messages2).2.completionCalls = 2 ∧
    feeMatchV1 ("inference failed: settleFee: expected 1.5 A0GI".data) = some "1.5" ∧
    parseJsDecimal "1.5" = some (15, 1) ∧
    jsDecimalVal (15, 1) = 3 / 2 := by
  have hstep0 := stepAttempt_fee g.providerAddress (env 0) {} h0 r0 e0 cap
    hh0 hc0 hnc0 herr0 hsub0 hfm0
  have hloop : runLoop g.providerAddress env (k + 1 + 1) 0 {} =
      runLoop g.providerAddress env (k + 1) 1
        { result := some r0, signCalls := 1, inferCalls := 1,
          usedHeaders := [h0], settleTrace := [(g.providerAddress, parseJsDecimal cap)] } := by
    rw [runLoop, hstep0]
    simp
  have hstep1 := stepAttempt_break g.providerAddress (env 1)
    { result := some r0, signCalls := 1, inferCalls := 1,
      usedHeaders := [h0], settleTrace := [(g.providerAddress, parseJsDecimal cap)] }
    h1 r1 hh1 hc1 hcont1
  have hloop2 : runLoop g.providerAddress env (k + 1) 1
      { result := some r0, signCalls := 1, inferCalls := 1,
        usedHeaders := [h0], settleTrace := [(g.providerAddress, parseJsDecimal cap)] } =
      { result := some r1, signCalls := 2, inferCalls := 2,
        usedHeaders := [h0, h1], settleTrace := [(g.providerAddress, parseJsDecimal cap)] } := by
    rw [runLoop, hstep1]
    simp
  have hfin : runLoop g.providerAddress env g.maxRetries 0 {} =
      { result := some r1, signCalls := 2, inferCalls := 2,
        usedHeaders := [h0, h1], settleTrace := [(g.providerAddress, parseJsDecimal cap)] } := by
    rw [hmax, hloop, hloop2]
  have hv2 : callPhaseV2 svc2.provider h2v env2 =
      (.ok comp2, { completionCalls := 2
                    callHeaders := [h2v, h2v]
                    settleTrace := [(svc2.provider, parseJsDecimal cap2)] }) := by
    simp [callPhaseV2, hcall12, herrF2, hne2, hfm2, hsettle2, hcall22]
  refine ⟨?_, ?_, ?_, ?_, ?_, ?_, by decide, by decide, by norm_num [jsDecimalVal]⟩
  · simp [createChatCompletionV1, hfin]
  · simp [createChatCompletionV1, hfin]
  · simp [createChatCompletionV1, hfin]
  · simp only [createChatCompletionV1, hfin]
    obtain ⟨c, rest, m, s, hch, hm, hcnt, hs⟩ := hasContent_true_elim r1 hcont1
    rw [finishV1_success g nowSec r1 c rest m s hch hm hcnt hs]
    rfl
  · simp [createChatCompletionV2, resolveV2, hres2, hmeta2, hhd2, hv2]
  · simp [createChatCompletionV2, resolveV2, hres2, hmeta2, hhd2, hv2]

/-- The raw fee-shortfall error result of scenario C. -/
def feeErrResult : InferenceResult :=
  { choices := none, error := some "settleFee: expected 2.0 A0GI", id := none }

/-- Pinned-provider configuration for the C3 witness (`maxRetries = 3`). -/
def gWitC3 : GatewayV1 := ⟨"p", 3, "endpoint", "m"⟩

/-- C3 witness environment: attempt 0 returns the fee-shortfall error,
settlement succeeds, attempt 1 returns a valid completion. -/
def envWitC3v1 : Nat → AttemptEnv := fun i =>
  if i = 0 then { headers := .ok 10, call := .ok feeErrResult, settle := .ok () }
  else { headers := .ok 11, call := .ok goodCompletion, settle := .ok () }

/-- Witness for C3 (scenario C): the error text
`"settleFee: expected 2.0 A0GI"` produces exactly one settlement call
with the decimal `2.0`, two signing calls, two inference calls and a
successful result in the pinned-provider loop, and one settlement with
`2.0` plus the single retry in the cache-resolver variant. -/
theorem fee_shortfall_settles_extracted_amount_witness :
    (createChatCompletionV1 gWitC3 envWitC3v1 0 "any-model" []).2.settleTrace =
      [("p", parseJsDecimal "2.0")] ∧
    (createChatCompletionV1 gWitC3 envWitC3v1 0 "any-model" []).2.signCalls = 2 ∧
    (createChatCompletionV1 gWitC3 envWitC3v1 0 "any-model" []).2.inferCalls = 2 ∧
    isExhaustedOutcome (createChatCompletionV1 gWitC3 envWitC3v1 0 "any-model" []).1 = false ∧
    (createChatCompletionV2 [(cacheKey svcWit, svcWit)] envWitC5 "mod"
        [⟨"user", "hi"⟩]).2.settleTrace = [(svcWit.provider, parseJsDecimal "2.0")] ∧
    (createChatCompletionV2 [(cacheKey svcWit, svcWit)] envWitC5 "mod"
        [⟨"user", "hi"⟩]).2.completionCalls = 2 ∧
    feeMatchV1 ("inference failed: settleFee: expected 1.5 A0GI".data) = some "1.5" ∧
    parseJsDecimal "1.5" = some (15, 1) ∧
    jsDecimalVal (15, 1) = 3 / 2 :=
  fee_shortfall_settles_extracted_amount gWitC3 envWitC3v1 0 "any-model" [] 1 10 11
    feeErrResult goodCompletion "settleFee: expected 2.0 A0GI" "2.0"
    [(cacheKey svcWit, svcWit)] envWitC5 "mod" [⟨"user", "hi"⟩] svcWit ("http://e", "mod") 7
    ⟨some "settleFee: expected 2.0 A0GI", "err-obj"⟩ "settleFee: expected 2.0 A0GI" "2.0"
    goodCompletion (by decide) (by decide) (by decide) (by decide) (by decide) (by decide)
    (by decide) (by decide) (by decide) (by decide) (by decide) (by decide) (by decide)
    (by decide) (by decide) (by decide) (by decide) (by decide) (by decide)

/-- **C4 (amended).** The two variants treat a failing `settleFee`
differently.  In the pinned-provider retry loop the settlement failure
is caught by the attempt's `catch` and degrades to a transient failure
for that attempt only: with a fee shortfall and a *failing* settlement
on attempt 0 and a valid response on attempt 1, the call still
succeeds, having continued to the next attempt.  In the cache-resolver
variant, however, a settlement failure is rethrown and aborts the whole
request with the settlement error, with no further attempt. -/
theorem settle_failure_transient_v1_fatal_v2 (g : GatewayV1) (env : Nat → AttemptEnv)
    (nowSec : Nat) (modelArg : String) (messages : List ChatMessage)
    (k h0 h1 : Nat) (r0 r1 : InferenceResult) (e0 cap sErr : String)
    (cache : CacheT) (env2 : EnvV2) (m2 : String) (messages2 : List ChatMessage)
    (svc2 : Service) (md2 : String × String) (h2v : Nat) (u : UpErr)
    (es2 cap2 se2 : String)
    (hmax : g.maxRetries = k + 1 + 1)
    (hh0 : (env 0).headers = .ok h0) (hc0 : (env 0).call = .ok r0)
    (hnc0 : hasContent r0 = false) (herr0 : r0.error = some e0)
    (hsub0 : containsSub e0.data ("settleFee".data) = true)
    (hfm0 : feeMatchV1 e0.data = some cap)
    ( _hsettle0 : (env 0).settle = .error sErr)
    (hh1 : (env 1).headers = .ok h1) (hc1 : (env 1).call = .ok r1)
    (hcont1 : hasContent r1 = true)
    (hres2 : lookupModel cache m2 = some svc2)
    (hmeta2 : env2.metadata = .ok md2) (hhd2 : env2.headers = .ok h2v)
    (hcall12 : env2.call1 = .error u) (herrF2 : u.errField = some es2)
    (hne2 : es2 ≠ "") (hfm2 : feeMatchV2 es2.data = some cap2)
    (hsettle2 : env2.settle = .error se2) :
    isExhaustedOutcome (createChatCompletionV1 g env nowSec modelArg messages).1 = false ∧
    (createChatCompletionV1 g env nowSec modelArg messages).2.inferCalls = 2 ∧
    (createChatCompletionV1 g env nowSec modelArg messages).2.settleTrace =
      [(g.providerAddress, parseJsDecimal cap)] ∧
    (createChatCompletionV2 cache env2 m2 messages2).1 = .error (.broker se2) ∧
    (createChatCompletionV2 cache env2 m2 messages2).2.completionCalls = 1 ∧
    (createChatCompletionV2 cache env2 m2 messages2).2.settleTrace =
      [(svc2.provider, parseJsDecimal cap2)] := by
  have hstep0 := stepAttempt_fee g.providerAddress (env 0) {} h0 r0 e0 cap
    hh0 hc0 hnc0 herr0 hsub0 hfm0
  have hloop : runLoop g.providerAddress env (k + 1 + 1) 0 {} =
      runLoop g.providerAddress env (k + 1) 1
        { result := some r0, signCalls := 1, inferCalls := 1,
          usedHeaders := [h0], settleTrace := [(g.providerAddress, parseJsDecimal cap)] } := by
    rw [runLoop, hstep0]
    simp
  have hstep1 := stepAttempt_break g.providerAddress (env 1)
    { result := some r0, signCalls := 1, inferCalls := 1,
      usedHeaders := [h0], settleTrace := [(g.providerAddress, parseJsDecimal cap)] }
    h1 r1 hh1 hc1 hcont1
  have hfin : runLoop g.providerAddress env g.maxRetries 0 {} =
      { result := some r1, signCalls := 2, inferCalls := 2,
        usedHeaders := [h0, h1], settleTrace := [(g.providerAddress, parseJsDecimal cap)] } := by
    rw [hmax, hloop, runLoop, hstep1]
    simp
  have hv2 : callPhaseV2 svc2.provider h2v env2 =
      (.error (.broker se2), { completionCalls := 1
                               callHeaders := [h2v]
                               settleTrace := [(svc2.provider, parseJsDecimal cap2)] }) := by
    simp [callPhaseV2, hcall12, herrF2, hne2, hfm2, hsettle2]
  refine ⟨?_, ?_, ?_, ?_, ?_, ?_⟩
  · simp only [createChatCompletionV1, hfin]
    obtain ⟨c, rest, m, s, hch, hm, hcnt, hs⟩ := hasContent_true_elim r1 hcont1
    rw [finishV1_success g nowSec r1 c rest m s hch hm hcnt hs]
    rfl
  · simp [createChatCompletionV1, hfin]
  · simp [createChatCompletionV1, hfin]
  · simp [createChatCompletionV2, resolveV2, hres2, hmeta2, hhd2, hv2]
  · simp [createChatCompletionV2, resolveV2, hres2, hmeta2, hhd2, hv2]
  · simp [createChatCompletionV2, resolveV2, hres2, hmeta2, hhd2, hv2]

/-- C4 environments: the C5 settle-and-retry environment with a failing
settlement. -/
def envWitC4 : EnvV2 := { envWitC5 with settle := .error "settle boom" }

/-- Pinned-provider C4 witness environment: fee shortfall with failing
settlement on attempt 0, valid response on attempt 1. -/
def envWitC4v1 : Nat → AttemptEnv := fun i =>
  if i = 0 then { headers := .ok 10, call := .ok feeErrResult, settle := .error "settle boom" }
  else { headers := .ok 11, call := .ok goodCompletion, settle := .ok () }

/-- Witness for the amended C4. -/
theorem settle_failure_transient_v1_fatal_v2_witness :
    isExhaustedOutcome (createChatCompletionV1 gWitC3 envWitC4v1 0 "any-model" []).1 = false ∧
    (createChatCompletionV1 gWitC3 envWitC4v1 0 "any-model" []).2.inferCalls = 2 ∧
    (createChatCompletionV1 gWitC3 envWitC4v1 0 "any-model" []).2.settleTrace =
      [("p", parseJsDecimal "2.0")] ∧
    (createChatCompletionV2 [(cacheKey svcWit, svcWit)] envWitC4 "mod"
        [⟨"user", "hi"⟩]).1 = .error (.broker "settle boom") ∧
    (createChatCompletionV2 [(cacheKey svcWit, svcWit)] envWitC4 "mod"
        [⟨"user", "hi"⟩]).2.completionCalls = 1 ∧
    (createChatCompletionV2 [(cacheKey svcWit, svcWit)] envWitC4 "mod"
        [⟨"user", "hi"⟩]).2.settleTrace = [(svcWit.provider, parseJsDecimal "2.0")] :=
  settle_failure_transient_v1_fatal_v2 gWitC3 envWitC4v1 0 "any-model" [] 1 10 11
    feeErrResult goodCompletion "settleFee: expected 2.0 A0GI" "2.0" "settle boom"
    [(cacheKey svcWit, svcWit)] envWitC4 "mod" [⟨"user", "hi"⟩] svcWit ("http://e", "mod") 7
    ⟨some "settleFee: expected 2.0 A0GI", "err-obj"⟩ "settleFee: expected 2.0 A0GI" "2.0"
    "settle boom" (by decide) (by decide) (by decide) (by decide) (by decide) (by decide)
    (by decide) (by decide) (by decide) (by decide) (by decide) (by decide) (by decide)
    (by decide) (by decide) (by decide) (by decide) (by decide) (by decide)

/-- **C4 counterexample.** A concrete cache-resolver execution: the
first completion call fails with `"settleFee: expected 2.0 A0GI"`, the
`settleFee` invocation throws `"settle boom"` — and the whole request
aborts with that settlement error after a single completion call,
instead of continuing to a next attempt as the claim states. -/
theorem settle_failure_aborts_cache_resolver :
    (createChatCompletionV2 [(cacheKey svcWit, svcWit)] envWitC4 "mod"
        [⟨"user", "hi"⟩]).1 = .error (.broker "settle boom") ∧
    (createChatCompletionV2 [(cacheKey svcWit, svcWit)] envWitC4 "mod"
        [⟨"user", "hi"⟩]).2.settleTrace = [("prov", some ((20 : Int), 1))] ∧
    (createChatCompletionV2 [(cacheKey svcWit, svcWit)] envWitC4 "mod"
        [⟨"user", "hi"⟩]).2.completionCalls = 1 := by decide

/-- **C9 (amended).** A successful raw response missing its `id` field
crashes neither variant, but only the pinned-provider variant
substitutes a synthetic identifier: its `chatID || "1"` fallback
returns the response with `id = "1"` (and the usual shell: object
`"chat.completion"`, single assistant choice with `finish_reason`
`"stop"`, zeroed usage).  The cache-resolver variant performs no
substitution: it passes the missing `id` through, returning a response
whose identifier is simply absent. -/
theorem missing_id_handling (g : GatewayV1) (env : Nat → AttemptEnv) (nowSec : Nat)
    (modelArg : String) (messages : List ChatMessage) (k h0 : Nat) (r0 : InferenceResult)
    (c0 : UpstreamChoice) (rest0 : List UpstreamChoice) (m0 : UpstreamMessage) (s0 : String)
    (cache : CacheT) (env2 : EnvV2) (m2 : String) (messages2 : List ChatMessage)
    (svc2 : Service) (md2 : String × String) (h2v : Nat) (comp2 : InferenceResult)
    (c2 : UpstreamChoice) (rest2 : List UpstreamChoice) (mm2 : UpstreamMessage) (s2 : String)
    (b2 : Bool)
    (hmax : g.maxRetries = k + 1)
    (hh0 : (env 0).headers = .ok h0) (hc0 : (env 0).call = .ok r0)
    (hch0 : r0.choices = some (c0 :: rest0)) (hm0 : c0.message = some m0)
    (hcn0 : m0.content = some s0) (hs0 : s0 ≠ "") (hid0 : r0.id = none)
    (hres2 : lookupModel cache m2 = some svc2)
    (hmeta2 : env2.metadata = .ok md2) (hhd2 : env2.headers = .ok h2v)
    (hcall12 : env2.call1 = .ok comp2)
    (hch2 : comp2.choices = some (c2 :: rest2)) (hm2 : c2.message = some mm2)
    (hcn2 : mm2.content = some s2) (hs2 : s2 ≠ "") (hid2 : comp2.id = none)
    (hproc2 : env2.process = .ok b2) :
    (createChatCompletionV1 g env nowSec modelArg messages).1 = .ok
      { id := "1"
        object := "chat.completion"
        created := nowSec
        model := g.model
        choiceIndex := 0
        role := "assistant"
        content := s0
        finish_reason := "stop"
        prompt_tokens := 0
        completion_tokens := 0
        total_tokens := 0 } ∧
    (createChatCompletionV2 cache env2 m2 messages2).1 = .ok
      { id := none
        object := "chat.completion"
        created := env2.nowSec
        model := m2
        choiceIndex := 0
        role := "assistant"
        content := s2
        finish_reason := "stop"
        prompt_tokens := 0
        completion_tokens := 0
        total_tokens := 0 } := by
  have hcont0 : hasContent r0 = true := by
    simp [hasContent, hch0, hm0, hcn0, hs0]
  have hstep0 := stepAttempt_break g.providerAddress (env 0) {} h0 r0 hh0 hc0 hcont0
  have hfin : runLoop g.providerAddress env g.maxRetries 0 {} =
      { result := some r0, signCalls := 1, inferCalls := 1,
        usedHeaders := [h0], settleTrace := [] } := by
    rw [hmax, runLoop, hstep0]
    simp
  have hv2 : callPhaseV2 svc2.provider h2v env2 =
      (.ok comp2, { completionCalls := 1
                    callHeaders := [h2v] }) := by
    simp [callPhaseV2, hcall12]
  constructor
  · simp only [createChatCompletionV1, hfin]
    rw [finishV1_success g nowSec r0 c0 rest0 m0 s0 hch0 hm0 hcn0 hs0]
    simp [hid0]
  · simp only [createChatCompletionV2, resolveV2, hres2, hmeta2, hhd2, hv2]
    simp [finishV2, hch2, hm2, hcn2, hs2, hproc2, hid2]

/-- A valid completion whose `id` field is absent. -/
def noIdCompletion : InferenceResult :=
  { choices := some [⟨some ⟨some "hello"⟩⟩], error := none, id := none }

/-- Pinned-provider configuration for the C9 witness (`maxRetries = 1`). -/
def gWitC9 : GatewayV1 := ⟨"p", 1, "endpoint", "m"⟩

/-- C9 pinned-provider witness environment: the first attempt succeeds
with a valid completion that has no `id`. -/
def envWitC9v1 : Nat → AttemptEnv := fun _ =>
  { headers := .ok 3, call := .ok noIdCompletion, settle := .ok () }

/-- C9 cache-resolver witness environment: the single completion call
succeeds with a valid completion that has no `id`. -/
def envWitC9 : EnvV2 :=
  { listServices := .ok []
    metadata := .ok ("http://e", "mod")
    headers := .ok 7
    call1 := .ok noIdCompletion
    settle := .ok ()
    call2 := .error ⟨none, "unused"⟩
    process := .ok true
    nowSec := 5 }

/-- Witness for the amended C9. -/
theorem missing_id_handling_witness :
    (createChatCompletionV1 gWitC9 envWitC9v1 0 "any-model" []).1 = .ok
      { id := "1"
        object := "chat.completion"
        created := 0
        model := "m"
        choiceIndex := 0
        role := "assistant"
        content := "hello"
        finish_reason := "stop"
        prompt_tokens := 0
        completion_tokens := 0
        total_tokens := 0 } ∧
    (createChatCompletionV2 [(cacheKey svcWit, svcWit)] envWitC9 "mod"
        [⟨"user", "hi"⟩]).1 = .ok
      { id := none
        object := "chat.completion"
        created := 5
        model := "mod"
        choiceIndex := 0
        role := "assistant"
        content := "hello"
        finish_reason := "stop"
        prompt_tokens := 0
        completion_tokens := 0
        total_tokens := 0 } :=
  missing_id_handling gWitC9 envWitC9v1 0 "any-model" [] 0 3 noIdCompletion
    ⟨some ⟨some "hello"⟩⟩ [] ⟨some "hello"⟩ "hello"
    [(cacheKey svcWit, svcWit)] envWitC9 "mod" [⟨"user", "hi"⟩] svcWit ("http://e", "mod") 7
    noIdCompletion ⟨some ⟨some "hello"⟩⟩ [] ⟨some "hello"⟩ "hello" true
    (by decide) (by decide) (by decide) (by decide) (by decide) (by decide) (by decide)
    (by decide) (by decide) (by decide) (by decide) (by decide) (by decide) (by decide)
    (by decide) (by decide) (by decide) (by decide)

/-- **C9 counterexample.** A concrete cache-resolver execution whose
upstream completion is valid but has no `id`: the call succeeds (no
crash) yet the returned response carries *no* identifier at all —
`id` is absent rather than a substituted synthetic identifier, contrary
to the claim. -/
theorem missing_id_passes_through_cache_resolver :
    (createChatCompletionV2 [(cacheKey svcWit, svcWit)] envWitC9 "mod"
        [⟨"user", "hi"⟩]).1 = .ok
      { id := none
        object := "chat.completion"
        created := 5
        model := "mod"
        choiceIndex := 0
        role := "assistant"
        content := "hello"
        finish_reason := "stop"
        prompt_tokens := 0
        completion_tokens := 0
        total_tokens := 0 } := by decide

/-! ## Model resolution (claim C2) -/

theorem lookupModel_eq_none (m : String) : ∀ (cache : CacheT),
    (∀ p ∈ cache, p.2.model ≠ m) → lookupModel cache m = none := by
  intro cache
  induction cache with
  | nil => intro _; rfl
  | cons p rest ih =>
    intro h
    have hp : ¬ p.2.model = m := h p (List.mem_cons_self p rest)
    rw [lookupModel, if_neg hp]
    exact ih (fun q hq => h q (List.mem_cons_of_mem p hq))

/-- Entries after a `Map.set` come from the old map or are the new
binding. -/
theorem mem_mapSet (k : String) (v : Service) : ∀ (m : CacheT) (p : String × Service),
    p ∈ mapSet m k v → p ∈ m ∨ p = (k, v) := by
  intro m
  induction m with
  | nil =>
    intro p hp
    rw [mapSet] at hp
    right
    simpa using hp
  | cons q rest ih =>
    intro p hp
    by_cases hk : q.1 = k
    · rw [mapSet, if_pos hk] at hp
      rcases List.mem_cons.mp hp with h | h
      · right; exact h
      · left; exact List.mem_cons_of_mem q h
    · rw [mapSet, if_neg hk] at hp
      rcases List.mem_cons.mp hp with h | h
      · left
        rw [h]
        exact List.mem_cons_self q rest
      · rcases ih p h with h' | h'
        · left; exact List.mem_cons_of_mem q h'
        · right; exact h'

/-- Entries of a refreshed cache come from the old cache or carry a
service of the fetched list. -/
theorem mem_getModelsV2_cache : ∀ (svcs : List Service) (cache : CacheT)
    (p : String × Service), p ∈ (getModelsV2 cache svcs).1 → p ∈ cache ∨ p.2 ∈ svcs := by
  intro svcs
  induction svcs with
  | nil =>
    intro cache p hp
    left
    simpa [getModelsV2] using hp
  | cons s rest ih =>
    intro cache p hp
    have hrec : (getModelsV2 cache (s :: rest)).1 =
        (getModelsV2 (mapSet cache (cacheKey s) s) rest).1 := by
      simp [getModelsV2]
    rw [hrec] at hp
    rcases ih _ p hp with h | h
    · rcases mem_mapSet (cacheKey s) s cache p h with h' | h'
      · left; exact h'
      · right
        rw [h']
        exact List.mem_cons_self s rest
    · right; exact List.mem_cons_of_mem s h

/-- Resolution of a model absent from both the cache and the fetched
directory: one refresh, then the `Model ... not found` failure. -/
theorem resolveV2_not_found (cache : CacheT) (svcs : List Service) (m : String)
    (hMiss : ∀ p ∈ cache, p.2.model ≠ m) (hAbsent : ∀ s ∈ svcs, s.model ≠ m) :
    resolveV2 cache (.ok svcs) m =
      (.error (.errorMsg ("Model " ++ m ++ " not found")), 1) := by
  have h1 : lookupModel cache m = none := lookupModel_eq_none m cache hMiss
  have h2 : lookupModel (getModelsV2 cache svcs).1 m = none := by
    apply lookupModel_eq_none
    intro p hp
    rcases mem_getModelsV2_cache svcs cache p hp with h | h
    · exact hMiss p h
    · exact hAbsent p.2 h
  simp [resolveV2, h1, h2]

/-- Resolution performs at most one directory refresh. -/
theorem resolveV2_refresh_le_one (cache : CacheT) (listSvc : Except String (List Service))
    (m : String) : (resolveV2 cache listSvc m).2 ≤ 1 := by
  cases h1 : lookupModel cache m with
  | some s => simp [resolveV2, h1]
  | none =>
    cases listSvc with
    | error e => simp [resolveV2, h1]
    | ok svcs =>
      cases h2 : lookupModel (getModelsV2 cache svcs).1 m with
      | some s => simp [resolveV2, h1, h2]
      | none => simp [resolveV2, h1, h2]

/-- **C2.** Resolution checks the service cache first by exact,
case-sensitive model-name equality (`lookupModel` scans the entries in
order for `service.model === model`); it performs at most one directory
refresh per resolution call, and when the model is in neither the cache
nor the refreshed directory the call fails with
`Model <id> not found` after exactly one refresh, with zero calls to
the request signer and zero inference calls. -/
theorem model_not_found_after_one_refresh (cache : CacheT) (env : EnvV2) (m : String)
    (messages : List ChatMessage) (svcs : List Service)
    (hList : env.listServices = .ok svcs)
    (hMiss : ∀ p ∈ cache, p.2.model ≠ m)
    (hAbsent : ∀ s ∈ svcs, s.model ≠ m) :
    (resolveV2 cache env.listServices m).2 ≤ 1 ∧
    (createChatCompletionV2 cache env m messages).1 =
      .error (.errorMsg ("Model " ++ m ++ " not found")) ∧
    (createChatCompletionV2 cache env m messages).2.refreshCalls = 1 ∧
    (createChatCompletionV2 cache env m messages).2.signerCalls = 0 ∧
    (createChatCompletionV2 cache env m messages).2.completionCalls = 0 := by
  have hres := resolveV2_not_found cache svcs m hMiss hAbsent
  refine ⟨resolveV2_refresh_le_one cache env.listServices m, ?_, ?_, ?_, ?_⟩ <;>
    simp [createChatCompletionV2, hList, hres]

/-- Witness for C2 (scenario B): requesting `"unknown-model"` against
an empty cache and an empty directory fails with
`Model unknown-model not found` after exactly one refresh and zero
signer calls. -/
theorem model_not_found_after_one_refresh_witness :
    (resolveV2 [] (EnvV2.listServices
      { listServices := .ok []
        metadata := .error "unused"
        headers := .error "unused"
        call1 := .error ⟨none, "unused"⟩
        settle := .error "unused"
        call2 := .error ⟨none, "unused"⟩
        process := .ok true
        nowSec := 0 }) "unknown-model").2 ≤ 1 ∧
    (createChatCompletionV2 []
      { listServices := .ok []
        metadata := .error "unused"
        headers := .error "unused"
        call1 := .error ⟨none, "unused"⟩
        settle := .error "unused"
        call2 := .error ⟨none, "unused"⟩
        process := .ok true
        nowSec := 0 } "unknown-model" []).1 =
      .error (.errorMsg ("Model " ++ "unknown-model" ++ " not found")) ∧
    (createChatCompletionV2 []
      { listServices := .ok []
        metadata := .error "unused"
        headers := .error "unused"
        call1 := .error ⟨none, "unused"⟩
        settle := .error "unused"
        call2 := .error ⟨none, "unused"⟩
        process := .ok true
        nowSec := 0 } "unknown-model" []).2.refreshCalls = 1 ∧
    (createChatCompletionV2 []
      { listServices := .ok []
        metadata := .error "unused"
        headers := .error "unused"
        call1 := .error ⟨none, "unused"⟩
        settle := .error "unused"
        call2 := .error ⟨none, "unused"⟩
        process := .ok true
        nowSec := 0 } "unknown-model" []).2.signerCalls = 0 ∧
    (createChatCompletionV2 []
      { listServices := .ok []
        metadata := .error "unused"
        headers := .error "unused"
        call1 := .error ⟨none, "unused"⟩
        settle := .error "unused"
        call2 := .error ⟨none, "unused"⟩
        process := .ok true
        nowSec := 0 } "unknown-model" []).2.completionCalls = 0 :=
  model_not_found_after_one_refresh []
    { listServices := .ok []
      metadata := .error "unused"
      headers := .error "unused"
      call1 := .error ⟨none, "unused"⟩
      settle := .error "unused"
      call2 := .error ⟨none, "unused"⟩
      process := .ok true
      nowSec := 0 } "unknown-model" [] [] (by decide) (by decide) (by decide)
